import Mathlib

/-!
Verification of the conversation loop of `src/main.py` (a Streamlit + OpenAI
chatbot).  The Python module keeps an ordered list of chat turns in the
session state, seeds it with a fixed system prompt, and per user submission
appends the user turn, invokes one chat-completion call with the full
history, and on success appends and renders the assistant turn.

The shallow embedding below mirrors the source functions:
  * `Turn` embeds the `{"role": ..., "content": ...}` message dicts;
  * `SYSTEM_PROMPT` and `DEFAULT_MODEL` embed the module constants;
  * `display_chat_history` embeds the render loop (lines 54-58);
  * `get_ai_response` embeds the guarded completion call (lines 61-86),
    with the nondeterministic outside world (the OpenAI API and the Python
    exception mechanism) made explicit as an `ApiOutcome` parameter;
  * `interaction` embeds the `if user_text:` block of `main` (lines 121-145);
  * `mainStartup` embeds the startup part of `main` (lines 100-118).

Observable side effects (chat bubbles written, errors shown, the completion
request issued, turns appended to the session list) are recorded as an
ordered `Event` trace so that ordering claims can be stated.
-/

/-- One chat message dict `{"role": r, "content": c}`. -/
structure Turn where
  role : String
  content : String
deriving DecidableEq, Repr

/-- The module constant `SYSTEM_PROMPT` (lines 18-21). -/
def SYSTEM_PROMPT : Turn :=
  { role := "system"
    content := "You are a helpful and friendly AI assistant. Provide clear, concise, and accurate responses." }

/-- The module constant `DEFAULT_MODEL` (line 17). -/
def DEFAULT_MODEL : String := "gpt-4o-mini"

/-- The request shape passed to `client.chat.completions.create`
(lines 74-79): full message list, model id, temperature, max_tokens. -/
structure ApiRequest where
  messages : List Turn
  model : String
  temperature : ℚ
  max_tokens : ℕ
deriving DecidableEq, Repr

/-- Observable side effects of the script, in program order.
`renderBubble r c` is `st.chat_message(r).write(c)`; `errorShown` is
`st.error`; `infoShown` is `st.info`; `apiCall` is the issued completion
request; `appendTurn` is `st.session_state.messages.append(...)`. -/
inductive Event where
  | renderBubble (role : String) (content : String)
  | errorShown (msg : String)
  | infoShown (msg : String)
  | apiCall (req : ApiRequest)
  | appendTurn (t : Turn)
deriving DecidableEq, Repr

/-- Python truthiness of an `Optional[str]`: `None` and `""` are falsy. -/
def truthyStr : Option String → Bool
  | none => false
  | some s => s ≠ ""

/-- The possible outcomes of the external call
`client.chat.completions.create(...)` followed by
`response.choices[0].message.content`:
either it evaluates to a content value (an `Optional[str]`), or some step of
it raises an `OpenAIError`, or it raises any other `Exception` (this last
constructor also covers a malformed response object, whose attribute or
index access raises inside the `try`). -/
inductive ApiOutcome where
  | success (content : Option String)
  | openAIError (msg : String)
  | unexpectedError (msg : String)
deriving DecidableEq, Repr

/-- Outcomes on which the Python call raises instead of returning. -/
def ApiOutcome.isFailure : ApiOutcome → Bool
  | .success _ => false
  | .openAIError _ => true
  | .unexpectedError _ => true

/-- `get_ai_response` (lines 61-86): issue the completion request with the
given messages and model, `temperature=0.7`, `max_tokens=1000`; return the
response content on success, and on a raised `OpenAIError` or any other
`Exception` show an error with the corresponding message prefix and return
`None`.  The pair holds the returned value and the emitted event trace. -/
def get_ai_response (messages : List Turn) (model : String)
    (outcome : ApiOutcome) : Option String × List Event :=
  let req : ApiRequest :=
    { messages := messages, model := model, temperature := 7/10, max_tokens := 1000 }
  match outcome with
  | .success content => (content, [.apiCall req])
  | .openAIError e => (none, [.apiCall req, .errorShown ("OpenAI API Error: " ++ e)])
  | .unexpectedError e => (none, [.apiCall req, .errorShown ("Unexpected error: " ++ e)])

/-- `display_chat_history` (lines 54-58): write one chat bubble per stored
message, in stored order, skipping messages whose role is `"system"`. -/
def display_chat_history : List Turn → List Event
  | [] => []
  | m :: rest =>
    if m.role ≠ "system" then
      Event.renderBubble m.role m.content :: display_chat_history rest
    else
      display_chat_history rest

/-- The `if user_text:` block of `main` (lines 121-145), for one submission.
`user_text` is the `Optional[str]` from `st.chat_input`; `outcome` is what
the external completion call does on this interaction.  Returns the updated
message list and the emitted event trace.  Program order in the source:
render the user bubble (line 125), append the user message (line 129), call
`get_ai_response` (line 133), and if the returned text is truthy append the
assistant message (line 142) and render its bubble (line 145). -/
def interaction (messages : List Turn) (user_text : Option String)
    (outcome : ApiOutcome) : List Turn × List Event :=
  if truthyStr user_text then
    let text := user_text.getD ""
    let user_message : Turn := { role := "user", content := text }
    let messages1 := messages ++ [user_message]
    let callResult := get_ai_response messages1 DEFAULT_MODEL outcome
    let assistant_response_text := callResult.1
    let evs := Event.renderBubble "user" text ::
      Event.appendTurn user_message :: callResult.2
    if truthyStr assistant_response_text then
      let t := assistant_response_text.getD ""
      let assistant_message : Turn := { role := "assistant", content := t }
      (messages1 ++ [assistant_message],
        evs ++ [Event.appendTurn assistant_message, Event.renderBubble "assistant" t])
    else
      (messages1, evs)
  else
    (messages, [])

/-- A whole session after startup: fold `interaction` over a sequence of
(submission, call outcome) pairs, starting from the seeded history.  Each
Streamlit rerun processes one submission; the session list persists. -/
def runConversation (messages : List Turn) :
    List (Option String × ApiOutcome) → List Turn
  | [] => messages
  | (user_text, outcome) :: rest =>
    runConversation (interaction messages user_text outcome).1 rest

/-- `initialize_session_state` (lines 48-51): if the session slot is unset,
seed it with `[SYSTEM_PROMPT]`; otherwise keep what is stored. -/
def initialize_session_state : Option (List Turn) → List Turn
  | none => [SYSTEM_PROMPT]
  | some msgs => msgs

/-- Result of running `main` up to (and including) the initial history
render: either the script halted at `st.stop()` (lines 105, 112) with the
events shown so far, or it is running with an initialized message list. -/
inductive StartupResult where
  | halted (events : List Event)
  | running (messages : List Turn) (events : List Event)
deriving DecidableEq, Repr

/-- The startup part of `main` (lines 100-118): read the API key from the
environment; if it is falsy, show an error and an info message and stop;
then construct the client (`client_error = some e` models
`initialize_openai_client` raising with message `e`), stopping on failure;
then initialize the session state and render the stored history. -/
def mainStartup (env_api_key : Option String) (client_error : Option String)
    (session : Option (List Turn)) : StartupResult :=
  let api_key := env_api_key
  if ¬ truthyStr api_key then
    .halted
      [.errorShown "⚠️ API key not found. Please set the OPENAI_API_KEY environment variable.",
       .infoShown "Create a `.env` file with: `OPENAI_API_KEY=your_key_here`"]
  else
    match client_error with
    | some e => .halted [.errorShown ("Failed to initialize OpenAI client: " ++ e)]
    | none =>
      let messages := initialize_session_state session
      .running messages (display_chat_history messages)

/-- An even-length run of turns that alternates user/assistant starting with
user: the shape of everything appended after the seed by successful
interactions. -/
def userAssistantPairs : List Turn → Bool
  | [] => true
  | u :: a :: rest => u.role = "user" && a.role = "assistant" && userAssistantPairs rest
  | [_] => false

/-- Specification-side description of rendering (spec §8, round-trip): the
stored sequence, in stored order, with every system-role turn skipped, one
bubble per remaining turn. -/
def renderSpec (messages : List Turn) : List Event :=
  (messages.filter (fun m => m.role ≠ "system")).map
    (fun m => Event.renderBubble m.role m.content)

/-- `Bool`-level test for the completion-request event, used to count issued
calls in a trace. -/
def Event.isApiCall : Event → Bool
  | .apiCall _ => true
  | _ => false

/-- The turns produced by a list of (submission text, assistant reply)
pairs, one user turn then one assistant turn per pair. -/
def successTurns : List (String × String) → List Turn
  | [] => []
  | (text, reply) :: rest =>
    ⟨"user", text⟩ :: ⟨"assistant", reply⟩ :: successTurns rest

lemma interaction_success_eq (messages : List Turn) (text reply : String)
    (h : text ≠ "") (hr : reply ≠ "") :
    interaction messages (some text) (.success (some reply)) =
      (messages ++ [⟨"user", text⟩, ⟨"assistant", reply⟩],
       [Event.renderBubble "user" text,
        Event.appendTurn ⟨"user", text⟩,
        Event.apiCall
          { messages := messages ++ [⟨"user", text⟩], model := DEFAULT_MODEL,
            temperature := 7/10, max_tokens := 1000 },
        Event.appendTurn ⟨"assistant", reply⟩,
        Event.renderBubble "assistant" reply]) := by
  simp [interaction, truthyStr, get_ai_response, h, hr]

lemma interaction_success_falsy_eq (messages : List Turn) (text : String)
    (content : Option String) (h : text ≠ "") (hc : truthyStr content = false) :
    interaction messages (some text) (.success content) =
      (messages ++ [⟨"user", text⟩],
       [Event.renderBubble "user" text,
        Event.appendTurn ⟨"user", text⟩,
        Event.apiCall
          { messages := messages ++ [⟨"user", text⟩], model := DEFAULT_MODEL,
            temperature := 7/10, max_tokens := 1000 }]) := by
  cases content with
  | none => simp [interaction, truthyStr, get_ai_response, h]
  | some s =>
    have hs : s = "" := by simpa [truthyStr] using hc
    subst hs
    simp [interaction, truthyStr, get_ai_response, h]

lemma interaction_openAIError_eq (messages : List Turn) (text e : String)
    (h : text ≠ "") :
    interaction messages (some text) (.openAIError e) =
      (messages ++ [⟨"user", text⟩],
       [Event.renderBubble "user" text,
        Event.appendTurn ⟨"user", text⟩,
        Event.apiCall
          { messages := messages ++ [⟨"user", text⟩], model := DEFAULT_MODEL,
            temperature := 7/10, max_tokens := 1000 },
        Event.errorShown ("OpenAI API Error: " ++ e)]) := by
  simp [interaction, truthyStr, get_ai_response, h]

lemma interaction_unexpectedError_eq (messages : List Turn) (text e : String)
    (h : text ≠ "") :
    interaction messages (some text) (.unexpectedError e) =
      (messages ++ [⟨"user", text⟩],
       [Event.renderBubble "user" text,
        Event.appendTurn ⟨"user", text⟩,
        Event.apiCall
          { messages := messages ++ [⟨"user", text⟩], model := DEFAULT_MODEL,
            temperature := 7/10, max_tokens := 1000 },
        Event.errorShown ("Unexpected error: " ++ e)]) := by
  simp [interaction, truthyStr, get_ai_response, h]

lemma runConversation_successTurns (steps : List (String × String)) :
    ∀ messages : List Turn, (∀ p ∈ steps, p.1 ≠ "" ∧ p.2 ≠ "") →
      runConversation messages
        (steps.map fun p => (some p.1, ApiOutcome.success (some p.2)))
        = messages ++ successTurns steps := by
  induction steps with
  | nil => intro messages _; simp [runConversation, successTurns]
  | cons p rest ih =>
    intro messages h
    obtain ⟨h1, h2⟩ := h p (List.mem_cons_self p rest)
    obtain ⟨text, reply⟩ := p
    simp only [List.map_cons, runConversation, successTurns]
    rw [interaction_success_eq messages text reply h1 h2]
    rw [ih _ (fun q hq => h q (List.mem_cons_of_mem _ hq))]
    simp

lemma successTurns_length (steps : List (String × String)) :
    (successTurns steps).length = 2 * steps.length := by
  induction steps with
  | nil => rfl
  | cons p rest ih =>
    obtain ⟨text, reply⟩ := p
    simp only [successTurns, List.length_cons, ih, List.length]
    omega

lemma successTurns_pairs (steps : List (String × String)) :
    userAssistantPairs (successTurns steps) = true := by
  induction steps with
  | nil => rfl
  | cons p rest ih =>
    obtain ⟨text, reply⟩ := p
    simp [successTurns, userAssistantPairs, ih]

lemma interaction_fst_append (messages : List Turn) (user_text : Option String)
    (outcome : ApiOutcome) :
    ∃ appended, (interaction messages user_text outcome).1 = messages ++ appended := by
  dsimp only [interaction]
  split
  · split
    · exact ⟨_, by rw [List.append_assoc]⟩
    · exact ⟨_, rfl⟩
  · exact ⟨[], (List.append_nil messages).symm⟩

lemma runConversation_append (steps : List (Option String × ApiOutcome)) :
    ∀ messages : List Turn, ∃ appended,
      runConversation messages steps = messages ++ appended := by
  induction steps with
  | nil => exact fun messages => ⟨[], (List.append_nil messages).symm⟩
  | cons p rest ih =>
    intro messages
    obtain ⟨user_text, outcome⟩ := p
    obtain ⟨a1, h1⟩ := interaction_fst_append messages user_text outcome
    obtain ⟨a2, h2⟩ := ih (interaction messages user_text outcome).1
    rw [h1] at h2
    exact ⟨a1 ++ a2, by
      simp only [runConversation, h1, h2, List.append_assoc]⟩

/-- C1: after N non-empty submissions that each succeed (each completion
call returns a truthy reply), the conversation has length 1 + 2N (the seed
plus a user/assistant pair per submission), the seed system turn is still
first, and the appended turns alternate user/assistant starting with user. -/
theorem successful_run_shape (steps : List (String × String))
    (h : ∀ p ∈ steps, p.1 ≠ "" ∧ p.2 ≠ "") :
    (runConversation [SYSTEM_PROMPT]
        (steps.map fun p => (some p.1, ApiOutcome.success (some p.2)))).length
      = 1 + 2 * steps.length ∧
    (runConversation [SYSTEM_PROMPT]
        (steps.map fun p => (some p.1, ApiOutcome.success (some p.2)))).head?
      = some SYSTEM_PROMPT ∧
    userAssistantPairs
      ((runConversation [SYSTEM_PROMPT]
          (steps.map fun p => (some p.1, ApiOutcome.success (some p.2)))).drop 1)
      = true := by
  rw [runConversation_successTurns steps [SYSTEM_PROMPT] h]
  refine ⟨?_, rfl, ?_⟩
  · simp [successTurns_length]
    omega
  · simpa using successTurns_pairs steps

/-- Witness for C1 at the single successful submission ("Hello", "Hi"). -/
theorem successful_run_shape_witness :
    (∀ p ∈ [("Hello", "Hi")], p.1 ≠ "" ∧ p.2 ≠ "") ∧
    ((runConversation [SYSTEM_PROMPT]
        ([("Hello", "Hi")].map fun p => (some p.1, ApiOutcome.success (some p.2)))).length
      = 1 + 2 * [("Hello", "Hi")].length ∧
     (runConversation [SYSTEM_PROMPT]
        ([("Hello", "Hi")].map fun p => (some p.1, ApiOutcome.success (some p.2)))).head?
      = some SYSTEM_PROMPT ∧
     userAssistantPairs
       ((runConversation [SYSTEM_PROMPT]
           ([("Hello", "Hi")].map fun p => (some p.1, ApiOutcome.success (some p.2)))).drop 1)
       = true) :=
  ⟨by decide, successful_run_shape [("Hello", "Hi")] (by decide)⟩

/-- C2: if the completion call fails (raises), the interaction appends the
user turn only, shows an error, appends no assistant turn, and renders no
assistant bubble. -/
theorem failed_call_appends_user_only (messages : List Turn) (text : String)
    (outcome : ApiOutcome) (h : text ≠ "") (hf : outcome.isFailure = true) :
    (interaction messages (some text) outcome).1 = messages ++ [⟨"user", text⟩] ∧
    (∃ msg, Event.errorShown msg ∈ (interaction messages (some text) outcome).2) ∧
    (∀ t, Event.appendTurn t ∈ (interaction messages (some text) outcome).2 →
      t = ⟨"user", text⟩) ∧
    (∀ s, Event.renderBubble "assistant" s ∉ (interaction messages (some text) outcome).2) := by
  cases outcome with
  | success content => simp [ApiOutcome.isFailure] at hf
  | openAIError e =>
    rw [interaction_openAIError_eq messages text e h]
    refine ⟨rfl, ⟨"OpenAI API Error: " ++ e, by simp⟩, ?_, ?_⟩ <;> intro x <;> simp
  | unexpectedError e =>
    rw [interaction_unexpectedError_eq messages text e h]
    refine ⟨rfl, ⟨"Unexpected error: " ++ e, by simp⟩, ?_, ?_⟩ <;> intro x <;> simp

/-- Witness for C2 at submission "Hello" with an OpenAIError outcome. -/
theorem failed_call_appends_user_only_witness :
    ("Hello" : String) ≠ "" ∧
    (ApiOutcome.openAIError "auth").isFailure = true ∧
    ((interaction [SYSTEM_PROMPT] (some "Hello") (.openAIError "auth")).1
        = [SYSTEM_PROMPT] ++ [⟨"user", "Hello"⟩] ∧
     (∃ msg, Event.errorShown msg
        ∈ (interaction [SYSTEM_PROMPT] (some "Hello") (.openAIError "auth")).2) ∧
     (∀ t, Event.appendTurn t
        ∈ (interaction [SYSTEM_PROMPT] (some "Hello") (.openAIError "auth")).2 →
        t = ⟨"user", "Hello"⟩) ∧
     (∀ s, Event.renderBubble "assistant" s
        ∉ (interaction [SYSTEM_PROMPT] (some "Hello") (.openAIError "auth")).2)) :=
  ⟨by decide, by decide,
    failed_call_appends_user_only [SYSTEM_PROMPT] "Hello" (.openAIError "auth")
      (by decide) (by decide)⟩

/-- C3: turns are only ever appended — every interaction leaves the
existing conversation as a prefix — and every conversation reachable from
the seeded initial state still has the seed system turn at index 0. -/
theorem conversation_append_only_invariant :
    (∀ (messages : List Turn) (user_text : Option String) (outcome : ApiOutcome),
      ∃ appended, (interaction messages user_text outcome).1 = messages ++ appended) ∧
    (∀ steps, (runConversation [SYSTEM_PROMPT] steps).head? = some SYSTEM_PROMPT) := by
  refine ⟨interaction_fst_append, fun steps => ?_⟩
  obtain ⟨appended, hap⟩ := runConversation_append steps [SYSTEM_PROMPT]
  rw [hap]
  rfl

/-- C4: an absent or empty submission is a no-op: the conversation is
unchanged and no event (no render, no append, no completion call) occurs. -/
theorem empty_submission_noop (messages : List Turn) (outcome : ApiOutcome) :
    interaction messages none outcome = (messages, []) ∧
    interaction messages (some "") outcome = (messages, []) :=
  ⟨rfl, rfl⟩

/-- C5: rendering the stored conversation writes one bubble per stored
turn, in stored order, skipping exactly the system-role turns. -/
theorem render_matches_spec (messages : List Turn) :
    display_chat_history messages = renderSpec messages := by
  induction messages with
  | nil => rfl
  | cons m rest ih =>
    by_cases h : m.role = "system" <;>
      simp [display_chat_history, renderSpec, List.filter_cons, h] <;>
      simpa [renderSpec] using ih

/-- C6: every non-empty submission issues exactly one completion call, and
that call carries the whole current conversation including the just-appended
user turn, the model "gpt-4o-mini", temperature 0.7, and max_tokens 1000. -/
theorem single_call_full_context (messages : List Turn) (text : String)
    (outcome : ApiOutcome) (h : text ≠ "") :
    ((interaction messages (some text) outcome).2.filter Event.isApiCall)
      = [Event.apiCall
          { messages := messages ++ [⟨"user", text⟩], model := "gpt-4o-mini",
            temperature := 7/10, max_tokens := 1000 }] := by
  cases outcome with
  | success content =>
    rcases content with _ | s
    · rw [interaction_success_falsy_eq messages text none h (by decide)]
      simp [Event.isApiCall, DEFAULT_MODEL]
    · by_cases hs : s = ""
      · subst hs
        rw [interaction_success_falsy_eq messages text (some "") h (by decide)]
        simp [Event.isApiCall, DEFAULT_MODEL]
      · rw [interaction_success_eq messages text s h hs]
        simp [Event.isApiCall, DEFAULT_MODEL]
  | openAIError e =>
    rw [interaction_openAIError_eq messages text e h]
    simp [Event.isApiCall, DEFAULT_MODEL]
  | unexpectedError e =>
    rw [interaction_unexpectedError_eq messages text e h]
    simp [Event.isApiCall, DEFAULT_MODEL]

/-- Witness for C6 at submission "Hello" with a successful call. -/
theorem single_call_full_context_witness :
    ("Hello" : String) ≠ "" ∧
    ((interaction [SYSTEM_PROMPT] (some "Hello")
        (.success (some "Hi"))).2.filter Event.isApiCall)
      = [Event.apiCall
          { messages := [SYSTEM_PROMPT] ++ [⟨"user", "Hello"⟩], model := "gpt-4o-mini",
            temperature := 7/10, max_tokens := 1000 }] :=
  ⟨by decide,
    single_call_full_context [SYSTEM_PROMPT] "Hello" (.success (some "Hi")) (by decide)⟩

/-- C7: with the API-key variable absent, startup halts with a user-visible
error before any conversation is initialized: no bubble is rendered, no
completion call is issued, no turn is appended. -/
theorem missing_api_key_halts (client_error : Option String)
    (session : Option (List Turn)) :
    ∃ events, mainStartup none client_error session = .halted events ∧
      (∃ msg, Event.errorShown msg ∈ events) ∧
      (∀ r c, Event.renderBubble r c ∉ events) ∧
      (∀ req, Event.apiCall req ∉ events) ∧
      (∀ t, Event.appendTurn t ∉ events) := by
  refine ⟨[.errorShown "⚠️ API key not found. Please set the OPENAI_API_KEY environment variable.",
           .infoShown "Create a `.env` file with: `OPENAI_API_KEY=your_key_here`"],
          rfl, ⟨_, List.mem_cons_self _ _⟩, ?_, ?_, ?_⟩
  · intro r c
    simp
  · intro req
    simp
  · intro t
    simp

/-- C8 as stated fails on the code: in the trace of the concrete
interaction below, the user turn's append event (line 129 of the source)
does not precede its render event (line 125) — the bubble is rendered
first. -/
theorem user_append_before_render_false :
    ¬ (Event.appendTurn ⟨"user", "Hello"⟩
         ∈ (interaction [SYSTEM_PROMPT] (some "Hello") (.success (some "Hi"))).2 ∧
       Event.renderBubble "user" "Hello"
         ∈ (interaction [SYSTEM_PROMPT] (some "Hello") (.success (some "Hi"))).2 ∧
       (interaction [SYSTEM_PROMPT] (some "Hello") (.success (some "Hi"))).2.indexOf
           (Event.appendTurn ⟨"user", "Hello"⟩)
         < (interaction [SYSTEM_PROMPT] (some "Hello") (.success (some "Hi"))).2.indexOf
           (Event.renderBubble "user" "Hello")) := by
  decide

/-- C8 (amended): per interaction with a non-empty submission, the user
bubble is rendered first, then the user turn is appended, and then the
completion call is issued — in that order, before any further event. -/
theorem user_render_append_call_order (messages : List Turn) (text : String)
    (outcome : ApiOutcome) (h : text ≠ "") :
    ∃ tail, (interaction messages (some text) outcome).2
      = Event.renderBubble "user" text :: Event.appendTurn ⟨"user", text⟩ ::
        Event.apiCall
          { messages := messages ++ [⟨"user", text⟩], model := "gpt-4o-mini",
            temperature := 7/10, max_tokens := 1000 } :: tail := by
  cases outcome with
  | success content =>
    rcases content with _ | s
    · rw [interaction_success_falsy_eq messages text none h (by decide)]
      exact ⟨[], rfl⟩
    · by_cases hs : s = ""
      · subst hs
        rw [interaction_success_falsy_eq messages text (some "") h (by decide)]
        exact ⟨[], rfl⟩
      · rw [interaction_success_eq messages text s h hs]
        exact ⟨[Event.appendTurn ⟨"assistant", s⟩, Event.renderBubble "assistant" s], rfl⟩
  | openAIError e =>
    rw [interaction_openAIError_eq messages text e h]
    exact ⟨[Event.errorShown ("OpenAI API Error: " ++ e)], rfl⟩
  | unexpectedError e =>
    rw [interaction_unexpectedError_eq messages text e h]
    exact ⟨[Event.errorShown ("Unexpected error: " ++ e)], rfl⟩

/-- Witness for the amended C8 at submission "Hello" with a failing call. -/
theorem user_render_append_call_order_witness :
    ("Hello" : String) ≠ "" ∧
    ∃ tail, (interaction [SYSTEM_PROMPT] (some "Hello") (.openAIError "auth")).2
      = Event.renderBubble "user" "Hello" :: Event.appendTurn ⟨"user", "Hello"⟩ ::
        Event.apiCall
          { messages := [SYSTEM_PROMPT] ++ [⟨"user", "Hello"⟩], model := "gpt-4o-mini",
            temperature := 7/10, max_tokens := 1000 } :: tail :=
  ⟨by decide,
    user_render_append_call_order [SYSTEM_PROMPT] "Hello" (.openAIError "auth") (by decide)⟩

/-- C9: `get_ai_response` is total over every outcome of the external call:
a returned response has its content passed through after exactly the one
request event, and any raised exception is caught, one error is shown, and
`none` is returned — no outcome escapes these two shapes. -/
theorem get_ai_response_never_raises (messages : List Turn) (model : String)
    (outcome : ApiOutcome) :
    (∃ content, outcome = .success content ∧
      get_ai_response messages model outcome =
        (content, [.apiCall { messages := messages, model := model,
                              temperature := 7/10, max_tokens := 1000 }])) ∨
    (outcome.isFailure = true ∧
      ∃ msg, get_ai_response messages model outcome =
        (none, [.apiCall { messages := messages, model := model,
                           temperature := 7/10, max_tokens := 1000 },
                .errorShown msg])) := by
  cases outcome with
  | success content => exact Or.inl ⟨content, rfl, rfl⟩
  | openAIError e => exact Or.inr ⟨rfl, "OpenAI API Error: " ++ e, rfl⟩
  | unexpectedError e => exact Or.inr ⟨rfl, "Unexpected error: " ++ e, rfl⟩

/-- C10: if the call succeeds but the returned content is `None` or the
empty string, only the user turn remains appended, no assistant bubble is
rendered, no assistant turn is appended, and no error is shown. -/
theorem falsy_reply_silent (messages : List Turn) (text : String)
    (content : Option String) (h : text ≠ "") (hc : truthyStr content = false) :
    (interaction messages (some text) (.success content)).1
      = messages ++ [⟨"user", text⟩] ∧
    (∀ s, Event.renderBubble "assistant" s
      ∉ (interaction messages (some text) (.success content)).2) ∧
    (∀ t, Event.appendTurn t ∈ (interaction messages (some text) (.success content)).2 →
      t = ⟨"user", text⟩) ∧
    (∀ msg, Event.errorShown msg
      ∉ (interaction messages (some text) (.success content)).2) := by
  rw [interaction_success_falsy_eq messages text content h hc]
  refine ⟨rfl, ?_, ?_, ?_⟩
  · intro s
    simp
  · intro t ht
    simpa using ht
  · intro msg
    simp

/-- Witness for C10 at submission "Hello" with a `None` response content. -/
theorem falsy_reply_silent_witness :
    ("Hello" : String) ≠ "" ∧ truthyStr none = false ∧
    ((interaction [SYSTEM_PROMPT] (some "Hello") (.success none)).1
        = [SYSTEM_PROMPT] ++ [⟨"user", "Hello"⟩] ∧
     (∀ s, Event.renderBubble "assistant" s
        ∉ (interaction [SYSTEM_PROMPT] (some "Hello") (.success none)).2) ∧
     (∀ t, Event.appendTurn t
        ∈ (interaction [SYSTEM_PROMPT] (some "Hello") (.success none)).2 →
        t = ⟨"user", "Hello"⟩) ∧
     (∀ msg, Event.errorShown msg
        ∉ (interaction [SYSTEM_PROMPT] (some "Hello") (.success none)).2)) :=
  ⟨by decide, rfl, falsy_reply_silent [SYSTEM_PROMPT] "Hello" none (by decide) rfl⟩
